import Mathlib

/-!
Shallow embedding of the govrrp repository (Trisia/govrrp): the VRRPv3
advertisement wire codec (vrrp_packet.go), the virtual-router state machine
(virtual_router.go), the message-reading paths (vrrp_conn.go and the revised
connection file), and the virtual MAC address construction.

Bytes are modelled as `Nat` values; machine-integer truncation is written as
an explicit `% 2^w` exactly where the Go code performs a narrowing conversion
or where a Go machine operation can wrap.
-/

namespace Govrrp

/-! ## Constants (constants of the repository) -/

def IPv4 : Nat := 4
def IPv6 : Nat := 6

def INIT : Nat := 0
def MASTER : Nat := 1
def BACKUP : Nat := 2

def SHUTDOWN : Nat := 0
def START : Nat := 1

def Master2Backup : Nat := 0
def Backup2Master : Nat := 1
def Init2Master : Nat := 2
def Init2Backup : Nat := 3
def Master2Init : Nat := 4
def Backup2Init : Nat := 5

def VRRPIPProtocolNumber : Nat := 112

/-! ## Data model: VRRPPacket and PseudoHeader (vrrp_packet.go) -/

/-- PseudoHeader: the IP-layer pseudo header fed to the checksum.
`Saddr`/`Daddr` are byte lists (a Go `net.IP` is a byte slice whose length
may be 4 or 16); `Len` is the uint16 VRRP message length. -/
structure PseudoHeader where
  Saddr : List Nat
  Daddr : List Nat
  Zero : Nat
  Protocol : Nat
  Len : Nat
  deriving Repr, DecidableEq

/-- VRRPPacket: 8-byte header plus the 4-byte groups of the address block
(`IPAddress [][4]byte` in the source; an IPv6 address occupies four groups).
`Pshdr` records the IP-layer information, set by the receive path. -/
structure VRRPPacket where
  Header : List Nat
  IPAddress : List (List Nat)
  Pshdr : Option PseudoHeader
  deriving Repr, DecidableEq

/-- Go `copy` of an IP byte slice into a zero-initialised 16-byte region:
the first `min 16 (length l)` bytes come from `l`, the rest stay zero. -/
def fill16 (l : List Nat) : List Nat :=
  l.take 16 ++ List.replicate (16 - l.length) 0

/-- PseudoHeader.ToBytes: 36 bytes; source address into bytes 0-15,
destination into 16-31, then zero, protocol and the big-endian length. -/
def PseudoHeader.ToBytes (psh : PseudoHeader) : List Nat :=
  fill16 psh.Saddr ++ fill16 psh.Daddr ++
    [psh.Zero, psh.Protocol, (psh.Len >>> 8) % 256, psh.Len % 256]

/-- VRRPPacket.ToBytes: the 8 header bytes followed by the 4-byte address
groups (the Go slice copy of each `[4]byte` at offset `8+4*index`). -/
def VRRPPacket.ToBytes (packet : VRRPPacket) : List Nat :=
  packet.Header ++ packet.IPAddress.flatten

/-- VRRPPacket.PacketSize. -/
def VRRPPacket.PacketSize (packet : VRRPPacket) : Nat :=
  8 + packet.IPAddress.length * 4

/-! ### Header field getters and setters -/

def VRRPPacket.GetVersion (packet : VRRPPacket) : Nat :=
  (Nat.land (packet.Header.getD 0 0) 0xF0) >>> 4

def VRRPPacket.SetVersion (packet : VRRPPacket) (Version : Nat) : VRRPPacket :=
  { packet with Header :=
      (packet.Header.set 0
        (Nat.lor ((Version * 16) % 256) (Nat.land (packet.Header.getD 0 0) 0x0F))) }

def VRRPPacket.GetType (packet : VRRPPacket) : Nat :=
  Nat.land (packet.Header.getD 0 0) 0x0F

/-- SetType: the type nibble is the fixed value 1 (ADVERTISEMENT). -/
def VRRPPacket.SetType (packet : VRRPPacket) : VRRPPacket :=
  { packet with Header :=
      (packet.Header.set 0 (Nat.lor (Nat.land (packet.Header.getD 0 0) 0xF0) 1)) }

def VRRPPacket.GetVirtualRouterID (packet : VRRPPacket) : Nat :=
  packet.Header.getD 1 0

def VRRPPacket.SetVirtualRouterID (packet : VRRPPacket) (VirtualRouterID : Nat) : VRRPPacket :=
  { packet with Header := packet.Header.set 1 VirtualRouterID }

def VRRPPacket.GetPriority (packet : VRRPPacket) : Nat :=
  packet.Header.getD 2 0

def VRRPPacket.SetPriority (packet : VRRPPacket) (Priority : Nat) : VRRPPacket :=
  { packet with Header := packet.Header.set 2 Priority }

def VRRPPacket.GetIPvXAddrCount (packet : VRRPPacket) : Nat :=
  packet.Header.getD 3 0

def VRRPPacket.setIPvXAddrCount (packet : VRRPPacket) (count : Nat) : VRRPPacket :=
  { packet with Header := packet.Header.set 3 count }

def VRRPPacket.GetAdvertisementInterval (packet : VRRPPacket) : Nat :=
  Nat.lor ((Nat.land (packet.Header.getD 4 0) 0x0F) <<< 8) (packet.Header.getD 5 0)

def VRRPPacket.SetAdvertisementInterval (packet : VRRPPacket) (interval : Nat) : VRRPPacket :=
  { packet with Header :=
      ((packet.Header.set 4
          (Nat.lor (Nat.land (packet.Header.getD 4 0) 0xF0)
            (Nat.land (interval >>> 8) 0x0F))).set 5 (interval % 256)) }

def VRRPPacket.GetCheckSum (packet : VRRPPacket) : Nat :=
  Nat.lor ((packet.Header.getD 6 0) <<< 8) (packet.Header.getD 7 0)

/-- AddIPAddr, on the `Is4` branch: append one 4-byte group and bump the
count byte (Go uint8 increment, hence `% 256`). -/
def VRRPPacket.AddIPAddr (packet : VRRPPacket) (a b c d : Nat) : VRRPPacket :=
  { packet with
    IPAddress := packet.IPAddress ++ [[a, b, c, d]],
    Header := packet.Header.set 3 ((packet.Header.getD 3 0 + 1) % 256) }

/-! ### Checksum (RFC 1071 one's complement, as implemented)

The Go loop reads the byte stream as host-order (little-endian) 16-bit
words via an unsafe pointer, accumulating into a `uint32`; a trailing odd
byte is added on its own; carries are folded until the high half is zero. -/

/-- The accumulation loop of SetCheckSum / ValidateCheckSum: consume two
bytes as a little-endian 16-bit word (`uint32` addition, hence `% 2^32`),
and a final lone byte directly. -/
def csum16 : List Nat → Nat → Nat
  | a :: b :: rest, sum => csum16 rest ((sum + (a + 256 * b)) % 4294967296)
  | [a], sum => (sum + a) % 4294967296
  | [], sum => sum

/-- The carry-folding loop `for (sum >> 16) > 0 { sum = sum&65535 + sum>>16 }`. -/
def foldCarry (sum : Nat) : Nat :=
  if sum < 65536 then sum else foldCarry (sum % 65536 + sum / 65536)
termination_by sum
decreasing_by omega

theorem foldCarry_eq (sum : Nat) :
    foldCarry sum = if sum < 65536 then sum else foldCarry (sum % 65536 + sum / 65536) := by
  rw [foldCarry]

/-- SetCheckSum: checksum over pseudo-header ++ message; the folded sum is
complemented in `uint32` (`2^32-1 - sum`) and its low byte goes to
`Header[6]`, the next byte to `Header[7]`. -/
def VRRPPacket.SetCheckSum (packet : VRRPPacket) (pshdr : PseudoHeader) : VRRPPacket :=
  { packet with Header :=
      ((packet.Header.set 7
          (((4294967295 - foldCarry (csum16 (pshdr.ToBytes ++ packet.ToBytes) 0)) / 256) % 256)).set 6
        ((4294967295 - foldCarry (csum16 (pshdr.ToBytes ++ packet.ToBytes) 0)) % 256)) }

/-- ValidateCheckSum: the folded sum over pseudo-header ++ message (checksum
bytes included) must be all-ones as a uint16. -/
def VRRPPacket.ValidateCheckSum (packet : VRRPPacket) (pshdr : PseudoHeader) : Bool :=
  foldCarry (csum16 (pshdr.ToBytes ++ packet.ToBytes) 0) % 65536 == 65535

/-! ### FromBytes (decoding) -/

/-- The decode loop of FromBytes: read `n` consecutive 4-byte groups
starting at the current position (`octets[8+4*index .. 8+4*index+3]`). -/
def readGroups : Nat → List Nat → List (List Nat)
  | 0, _ => []
  | n + 1, l => l.take 4 :: readGroups n (l.drop 4)

/-- The shared tail of FromBytes after `countofaddrs` has been fixed by the
family switch: reject when `8 + countofaddrs*4` exceeds the input, otherwise
read the header copy and the address groups. -/
def fromBytesTail (countofaddrs : Nat) (octets : List Nat) : Except String VRRPPacket :=
  if 8 + countofaddrs * 4 > octets.length then
    Except.error "The value of filed IPvXAddrCount does not match the length of octets"
  else
    Except.ok
      { Header := octets.take 8,
        IPAddress := readGroups countofaddrs (octets.drop 8),
        Pshdr := none }

/-- FromBytes: require 8 header bytes; `countofaddrs` is the count byte for
IPv4 and four times it for IPv6 (each IPv6 address is four 4-byte groups);
reject other family values. -/
def FromBytes (IPvXVersion : Nat) (octets : List Nat) : Except String VRRPPacket :=
  if octets.length < 8 then
    Except.error "faulty VRRP packet size"
  else if IPvXVersion = 4 then
    fromBytesTail ((octets.take 8).getD 3 0) octets
  else if IPvXVersion = 6 then
    fromBytesTail ((octets.take 8).getD 3 0 * 4) octets
  else
    Except.error "faulty IPvX version"

/-! ### Decoding lemmas -/

theorem readGroups_flatten (n : Nat) (l : List Nat) :
    (readGroups n l).flatten = l.take (4 * n) := by
  induction n generalizing l with
  | zero => simp [readGroups]
  | succ m ih =>
    have h4 : 4 * (m + 1) = 4 + 4 * m := by ring
    rw [readGroups, List.flatten_cons, ih, h4, List.take_add]

theorem readGroups_of_groups (gs : List (List Nat)) (rest : List Nat)
    (h : ∀ g ∈ gs, g.length = 4) :
    readGroups gs.length (gs.flatten ++ rest) = gs := by
  induction gs with
  | nil => simp [readGroups]
  | cons g tl ih =>
    have hg : g.length = 4 := h g (by simp)
    have htl : ∀ x ∈ tl, x.length = 4 := fun x hx => h x (by simp [hx])
    rw [List.length_cons, readGroups, List.flatten_cons, List.append_assoc]
    rw [← hg, List.take_left, List.drop_left, ih htl]

theorem getD3_take8 (l : List Nat) : (l.take 8).getD 3 0 = l.getD 3 0 := by
  match l with
  | [] => rfl
  | [_] => rfl
  | [_, _] => rfl
  | [_, _, _] => rfl
  | _ :: _ :: _ :: x :: _ => rfl

/-! ### Arithmetic of the one's-complement checksum -/

/-- The plain (wrap-free) value of the 16-bit-word accumulation: little-endian
words of consecutive byte pairs plus a lone trailing byte. -/
def pairSum : List Nat → Nat
  | a :: b :: rest => a + 256 * b + pairSum rest
  | [a] => a
  | [] => 0

theorem twoStepList {motive : List Nat → Prop} (h0 : motive []) (h1 : ∀ a, motive [a])
    (h2 : ∀ a b rest, motive rest → motive (a :: b :: rest)) : ∀ l, motive l
  | [] => h0
  | [a] => h1 a
  | a :: b :: rest => h2 a b rest (twoStepList h0 h1 h2 rest)

theorem csum16_eq_pairSum (l : List Nat) :
    ∀ acc, acc < 4294967296 → csum16 l acc = (acc + pairSum l) % 4294967296 := by
  induction l using twoStepList with
  | h0 =>
    intro acc ha
    rw [csum16, pairSum, Nat.add_zero, Nat.mod_eq_of_lt ha]
  | h1 a =>
    intro acc ha
    rfl
  | h2 a b rest ih =>
    intro acc ha
    rw [csum16, pairSum, ih _ (Nat.mod_lt _ (by norm_num)), Nat.mod_add_mod]
    congr 1
    ring

theorem pairSum_le (l : List Nat) (hb : ∀ x ∈ l, x ≤ 255) :
    pairSum l ≤ 65535 * l.length := by
  induction l using twoStepList with
  | h0 => simp [pairSum]
  | h1 a =>
    have := hb a (by simp)
    simp [pairSum]
    omega
  | h2 a b rest ih =>
    have ha := hb a (by simp)
    have hbb := hb b (by simp)
    have hr := ih (fun x hx => hb x (by simp [hx]))
    rw [pairSum]
    simp only [List.length_cons]
    omega

theorem pairSum_append_even (A B : List Nat) (hA : A.length % 2 = 0) :
    pairSum (A ++ B) = pairSum A + pairSum B := by
  induction A using twoStepList with
  | h0 => simp [pairSum]
  | h1 a => simp at hA
  | h2 a b rest ih =>
    have hr : rest.length % 2 = 0 := by
      simp only [List.length_cons] at hA
      omega
    rw [List.cons_append, List.cons_append, pairSum, pairSum, ih hr]
    ring

/-- csum16 agrees with the wrap-free word sum on genuine byte streams of
bounded length (no uint32 overflow occurs). -/
theorem csum16_of_bytes (l : List Nat) (hb : ∀ x ∈ l, x ≤ 255) (hlen : l.length ≤ 65536) :
    csum16 l 0 = pairSum l := by
  rw [csum16_eq_pairSum l 0 (by norm_num), Nat.zero_add]
  refine Nat.mod_eq_of_lt ?_
  calc pairSum l ≤ 65535 * l.length := pairSum_le l hb
    _ ≤ 65535 * 65536 := by
        exact Nat.mul_le_mul_left _ hlen
    _ < 4294967296 := by norm_num

theorem foldCarry_lt (x : Nat) : foldCarry x < 65536 := by
  induction x using Nat.strong_induction_on with
  | _ x ih =>
    rw [foldCarry_eq]
    split
    next h => omega
    next h => exact ih _ (by omega)

theorem foldCarry_modeq (x : Nat) : foldCarry x % 65535 = x % 65535 := by
  induction x using Nat.strong_induction_on with
  | _ x ih =>
    rw [foldCarry_eq]
    split
    next h => rfl
    next h =>
      rw [ih _ (by omega)]
      omega

theorem foldCarry_pos (x : Nat) (hx : 0 < x) : 0 < foldCarry x := by
  induction x using Nat.strong_induction_on with
  | _ x ih =>
    rw [foldCarry_eq]
    split
    next h => omega
    next h => exact ih _ (by omega) (by omega)

theorem foldCarry_zero : foldCarry 0 = 0 := by
  rw [foldCarry_eq]
  norm_num

/-- The defining property of the stored complement: validating a word sum
that carries the complement of its own folded checksum folds to all-ones. -/
theorem foldCarry_complement (W : Nat) :
    foldCarry (W + (65535 - foldCarry W)) = 65535 := by
  have hflt := foldCarry_lt W
  have hfmod := foldCarry_modeq W
  have hWpos : 0 < W + (65535 - foldCarry W) := by
    rcases Nat.eq_zero_or_pos W with h | h
    · subst h
      rw [foldCarry_zero]
      omega
    · omega
  have hmod : (W + (65535 - foldCarry W)) % 65535 = 0 := by omega
  have h1 := foldCarry_lt (W + (65535 - foldCarry W))
  have h2 := foldCarry_modeq (W + (65535 - foldCarry W))
  have h3 := foldCarry_pos _ hWpos
  omega

/-! ### Well-formedness helpers -/

theorem fill16_length (l : List Nat) : (fill16 l).length = 16 := by
  simp [fill16]
  omega

theorem pshToBytes_length (psh : PseudoHeader) : psh.ToBytes.length = 36 := by
  simp [PseudoHeader.ToBytes, fill16]
  omega

theorem flatten_length_of_groups (gs : List (List Nat)) (h : ∀ g ∈ gs, g.length = 4) :
    gs.flatten.length = 4 * gs.length := by
  induction gs with
  | nil => simp
  | cons g tl ih =>
    have hg := h g (by simp)
    have htl := ih (fun x hx => h x (by simp [hx]))
    simp only [List.flatten_cons, List.length_append, List.length_cons, hg, htl]
    ring

theorem bytes_fill16 (l : List Nat) (h : ∀ x ∈ l, x ≤ 255) : ∀ x ∈ fill16 l, x ≤ 255 := by
  intro x hx
  rw [fill16, List.mem_append] at hx
  rcases hx with hx | hx
  · exact h x (List.mem_of_mem_take hx)
  · rw [List.eq_of_mem_replicate hx]
    omega

theorem bytes_pshToBytes (psh : PseudoHeader) (hS : ∀ x ∈ psh.Saddr, x ≤ 255)
    (hD : ∀ x ∈ psh.Daddr, x ≤ 255) (hz : psh.Zero ≤ 255) (hp : psh.Protocol ≤ 255) :
    ∀ x ∈ psh.ToBytes, x ≤ 255 := by
  intro x hx
  rw [PseudoHeader.ToBytes, List.append_assoc, List.mem_append] at hx
  rcases hx with hx | hx
  · exact bytes_fill16 _ hS x hx
  · rw [List.mem_append] at hx
    rcases hx with hx | hx
    · exact bytes_fill16 _ hD x hx
    · have h1 : (psh.Len >>> 8) % 256 ≤ 255 := by omega
      have h2 : psh.Len % 256 ≤ 255 := by omega
      simp only [List.mem_cons, List.not_mem_nil, or_false] at hx
      rcases hx with rfl | rfl | rfl | rfl <;> omega

theorem bytes_flatten (gs : List (List Nat)) (h : ∀ g ∈ gs, ∀ x ∈ g, x ≤ 255) :
    ∀ x ∈ gs.flatten, x ≤ 255 := by
  intro x hx
  rw [List.mem_flatten] at hx
  obtain ⟨g, hg, hxg⟩ := hx
  exact h g hg x hxg

theorem length_eq_eight (l : List Nat) (h : l.length = 8) :
    ∃ b0 b1 b2 b3 b4 b5 b6 b7, l = [b0, b1, b2, b3, b4, b5, b6, b7] := by
  obtain _ | ⟨b0, l⟩ := l; · simp at h
  obtain _ | ⟨b1, l⟩ := l; · simp at h
  obtain _ | ⟨b2, l⟩ := l; · simp at h
  obtain _ | ⟨b3, l⟩ := l; · simp at h
  obtain _ | ⟨b4, l⟩ := l; · simp at h
  obtain _ | ⟨b5, l⟩ := l; · simp at h
  obtain _ | ⟨b6, l⟩ := l; · simp at h
  obtain _ | ⟨b7, l⟩ := l; · simp at h
  obtain _ | ⟨b8, l⟩ := l
  · exact ⟨b0, b1, b2, b3, b4, b5, b6, b7, rfl⟩
  · simp at h

theorem bytes_append (A B : List Nat) (hA : ∀ x ∈ A, x ≤ 255) (hB : ∀ x ∈ B, x ≤ 255) :
    ∀ x ∈ A ++ B, x ≤ 255 := by
  intro x hx
  rw [List.mem_append] at hx
  rcases hx with hx | hx
  · exact hA x hx
  · exact hB x hx

theorem take8_left (H rest : List Nat) (h : H.length = 8) : (H ++ rest).take 8 = H := by
  rw [← h, List.take_left]

theorem drop8_left (H rest : List Nat) (h : H.length = 8) : (H ++ rest).drop 8 = rest := by
  rw [← h, List.drop_left]

theorem pairSum_eight (x0 x1 x2 x3 x4 x5 x6 x7 : Nat) :
    pairSum [x0, x1, x2, x3, x4, x5, x6, x7] =
      x0 + 256 * x1 + (x2 + 256 * x3 + (x4 + 256 * x5 + (x6 + 256 * x7 + 0))) := by
  rfl

/-! ## C1: the canonical IPv4 advertisement (test vector S1) -/

/-- The advertisement built exactly as in the repository's encoding test:
version 3, type 1, vrid 240, priority 100, interval 100 cs, one IPv4
address 192.168.0.230. -/
def canonPacket : VRRPPacket :=
  ((((((({ Header := List.replicate 8 0, IPAddress := [], Pshdr := none } :
    VRRPPacket).SetPriority 100).SetVersion 3).SetVirtualRouterID 240).SetAdvertisementInterval
      100).SetType).AddIPAddr 192 168 0 230)

/-- The pseudo header of the test vector: `net.ParseIP` yields the 16-byte
IPv4-mapped forms of 192.168.0.220 and 224.0.0.18; protocol 112, length 12. -/
def canonPshdr : PseudoHeader :=
  { Saddr := [0, 0, 0, 0, 0, 0, 0, 0, 0, 0, 255, 255, 192, 168, 0, 220],
    Daddr := [0, 0, 0, 0, 0, 0, 0, 0, 0, 0, 255, 255, 224, 0, 0, 18],
    Zero := 0, Protocol := 112, Len := 12 }

theorem canon_csum : csum16 (canonPshdr.ToBytes ++ canonPacket.ToBytes) 0 = 456691 := by decide

/-- C1: encoding the canonical advertisement and applying SetCheckSum with
the canonical pseudo-header yields exactly the reference sample bytes
`31 f0 64 01 00 64 06 08 c0 a8 00 e6` (checksum bytes 06 08 at offsets 6-7),
and ValidateCheckSum on that packet with the same pseudo-header is true. -/
theorem canonical_advertisement_encoding :
    (canonPacket.SetCheckSum canonPshdr).ToBytes =
      [0x31, 0xF0, 0x64, 0x01, 0x00, 0x64, 0x06, 0x08, 0xC0, 0xA8, 0x00, 0xE6] ∧
    (canonPacket.SetCheckSum canonPshdr).ValidateCheckSum canonPshdr = true := by
  have h1 : foldCarry 456691 = 63481 := by
    rw [foldCarry_eq]; norm_num; rw [foldCarry_eq]; norm_num
  have h3 : foldCarry 458745 = 65535 := by
    rw [foldCarry_eq]; norm_num; rw [foldCarry_eq]; norm_num
  have hpkt : canonPacket.SetCheckSum canonPshdr =
      { Header := [0x31, 0xF0, 0x64, 0x01, 0x00, 0x64, 0x06, 0x08],
        IPAddress := [[192, 168, 0, 230]], Pshdr := none } := by
    unfold VRRPPacket.SetCheckSum
    rw [canon_csum, h1]
    decide
  refine ⟨by rw [hpkt]; decide, ?_⟩
  rw [hpkt]
  unfold VRRPPacket.ValidateCheckSum
  rw [show csum16 (canonPshdr.ToBytes ++
      ({ Header := [0x31, 0xF0, 0x64, 0x01, 0x00, 0x64, 0x06, 0x08],
         IPAddress := [[192, 168, 0, 230]], Pshdr := none } : VRRPPacket).ToBytes) 0 = 458745
    from by decide]
  rw [h3]
  decide

/-! ## C3: totality and exact error condition of FromBytes -/

/-- C3: FromBytes (a total function) fails exactly when the input is shorter
than 8 bytes, the family is neither 4 nor 6, or `8 + count·width` exceeds the
input length (width 4 for IPv4, 16 for IPv6, count = byte 3); on success the
returned header is the first 8 bytes and the flattened address list is the
following count·width bytes, never a partial result. -/
theorem FromBytes_spec (v : Nat) (octets : List Nat) :
    ((FromBytes v octets).isOk = true ↔
      ¬(octets.length < 8 ∨ (v ≠ 4 ∧ v ≠ 6) ∨
        (v = 4 ∧ 8 + octets.getD 3 0 * 4 > octets.length) ∨
        (v = 6 ∧ 8 + octets.getD 3 0 * 16 > octets.length))) ∧
    (∀ p, FromBytes v octets = Except.ok p →
      p.Header = octets.take 8 ∧
      p.IPAddress.flatten =
        (octets.drop 8).take (octets.getD 3 0 * (if v = 4 then 4 else 16))) := by
  have tail_isOk : ∀ (c : Nat) (l : List Nat),
      (fromBytesTail c l).isOk = true ↔ 8 + c * 4 ≤ l.length := by
    intro c l
    rw [fromBytesTail]
    split
    next h => exact ⟨(fun hh => by cases hh), (fun hh => by omega)⟩
    next h => exact ⟨(fun _ => by omega), (fun _ => rfl)⟩
  have tail_ok : ∀ (c : Nat) (l : List Nat) (p : VRRPPacket),
      fromBytesTail c l = Except.ok p →
      p.Header = l.take 8 ∧ p.IPAddress.flatten = (l.drop 8).take (4 * c) := by
    intro c l p hp
    rw [fromBytesTail] at hp
    split at hp
    · cases hp
    · rw [Except.ok.injEq] at hp
      subst hp
      exact ⟨rfl, readGroups_flatten c _⟩
  by_cases h8 : octets.length < 8
  · rw [FromBytes, if_pos h8]
    constructor
    · exact ⟨(fun h => by cases h), (fun hn => absurd (Or.inl h8) hn)⟩
    · intro p hp
      cases hp
  · by_cases hv4 : v = 4
    · subst hv4
      rw [FromBytes, if_neg h8, if_pos rfl, getD3_take8]
      constructor
      · rw [tail_isOk]
        constructor
        · rintro h (h1 | ⟨h1, _⟩ | ⟨_, h1⟩ | ⟨h1, _⟩)
          · exact h8 h1
          · exact h1 rfl
          · omega
          · exact absurd h1 (by norm_num)
        · intro hn
          by_contra hlt
          exact hn (Or.inr (Or.inr (Or.inl ⟨rfl, by omega⟩)))
      · intro p hp
        obtain ⟨hh, ha⟩ := tail_ok _ _ _ hp
        refine ⟨hh, ?_⟩
        rw [ha, if_pos rfl, Nat.mul_comm]
    · by_cases hv6 : v = 6
      · subst hv6
        rw [FromBytes, if_neg h8, if_neg (by norm_num), if_pos rfl, getD3_take8]
        constructor
        · rw [tail_isOk]
          constructor
          · rintro h (h1 | ⟨_, h1⟩ | ⟨h1, _⟩ | ⟨_, h1⟩)
            · exact h8 h1
            · exact h1 rfl
            · exact absurd h1 (by norm_num)
            · omega
          · intro hn
            by_contra hlt
            exact hn (Or.inr (Or.inr (Or.inr ⟨rfl, by omega⟩)))
        · intro p hp
          obtain ⟨hh, ha⟩ := tail_ok _ _ _ hp
          refine ⟨hh, ?_⟩
          rw [ha, if_neg (show ¬ (6 : Nat) = 4 by norm_num)]
          congr 1
          ring
      · rw [FromBytes, if_neg h8, if_neg hv4, if_neg hv6]
        constructor
        · exact ⟨(fun h => by cases h), (fun hn => absurd (Or.inr (Or.inl ⟨hv4, hv6⟩)) hn)⟩
        · intro p hp
          cases hp

/-! ## C2: SetCheckSum / FromBytes / ValidateCheckSum round trip -/

/-- C2: for every advertisement whose checksum bytes are zero (any version,
vrid, priority, interval bytes, any byte-valued address groups consistent
with the count byte for the chosen family) and every byte-valued
pseudo-header, after SetCheckSum the checksum validates against the same
pseudo-header, and FromBytes on the serialized bytes succeeds, returning a
packet with the identical 8-byte header and identical address list. -/
theorem setCheckSum_roundtrip (v : Nat) (p : VRRPPacket) (ph : PseudoHeader)
    (hH : p.Header.length = 8)
    (hHb : ∀ x ∈ p.Header, x ≤ 255)
    (h6 : p.Header.getD 6 0 = 0) (h7 : p.Header.getD 7 0 = 0)
    (hG : ∀ g ∈ p.IPAddress, g.length = 4)
    (hGb : ∀ g ∈ p.IPAddress, ∀ x ∈ g, x ≤ 255)
    (hS : ∀ x ∈ ph.Saddr, x ≤ 255) (hD : ∀ x ∈ ph.Daddr, x ≤ 255)
    (hz : ph.Zero ≤ 255) (hprot : ph.Protocol ≤ 255)
    (hcount : (v = 4 ∧ p.Header.getD 3 0 = p.IPAddress.length) ∨
              (v = 6 ∧ p.Header.getD 3 0 * 4 = p.IPAddress.length)) :
    (p.SetCheckSum ph).ValidateCheckSum ph = true ∧
    FromBytes v (p.SetCheckSum ph).ToBytes =
      Except.ok { Header := (p.SetCheckSum ph).Header,
                  IPAddress := p.IPAddress, Pshdr := none } := by
  obtain ⟨hdr, gs, pold⟩ := p
  simp only at hH hHb h6 h7 hG hGb hcount
  obtain ⟨b0, b1, b2, b3, b4, b5, b6, b7, hHeq⟩ := length_eq_eight hdr hH
  subst hHeq
  have hb6 : b6 = 0 := h6
  have hb7 : b7 = 0 := h7
  subst hb6
  subst hb7
  have hb3count : ([b0, b1, b2, b3, b4, b5, 0, 0] : List Nat).getD 3 0 = b3 := rfl
  rw [hb3count] at hcount
  have hb3 : b3 ≤ 255 := hHb b3 (by simp)
  have hGlen : gs.length ≤ 1020 := by
    rcases hcount with ⟨_, h⟩ | ⟨_, h⟩ <;> omega
  -- the byte stream with zero checksum bytes and its word sum
  have hflatlen : gs.flatten.length = 4 * gs.length := flatten_length_of_groups gs hG
  have hflatbytes : ∀ x ∈ gs.flatten, x ≤ 255 := bytes_flatten gs hGb
  have hphbytes : ∀ x ∈ ph.ToBytes, x ≤ 255 := bytes_pshToBytes ph hS hD hz hprot
  have hH0bytes : ∀ x ∈ ([b0, b1, b2, b3, b4, b5, 0, 0] : List Nat), x ≤ 255 := hHb
  have hstream0len :
      (ph.ToBytes ++ ([b0, b1, b2, b3, b4, b5, 0, 0] ++ gs.flatten)).length ≤ 65536 := by
    simp only [List.length_append, pshToBytes_length, List.length_cons, List.length_nil,
      hflatlen]
    omega
  have hstream0bytes :
      ∀ x ∈ ph.ToBytes ++ ([b0, b1, b2, b3, b4, b5, 0, 0] ++ gs.flatten), x ≤ 255 :=
    bytes_append _ _ hphbytes (bytes_append _ _ hH0bytes hflatbytes)
  have hT0 : VRRPPacket.ToBytes ⟨[b0, b1, b2, b3, b4, b5, 0, 0], gs, pold⟩ =
      [b0, b1, b2, b3, b4, b5, 0, 0] ++ gs.flatten := rfl
  have hcs0 : csum16 (ph.ToBytes ++ ([b0, b1, b2, b3, b4, b5, 0, 0] ++ gs.flatten)) 0 =
      pairSum (ph.ToBytes ++ ([b0, b1, b2, b3, b4, b5, 0, 0] ++ gs.flatten)) :=
    csum16_of_bytes _ hstream0bytes hstream0len
  set W0 := pairSum (ph.ToBytes ++ ([b0, b1, b2, b3, b4, b5, 0, 0] ++ gs.flatten)) with hW0def
  set f := foldCarry W0 with hfdef
  have hflt : f < 65536 := foldCarry_lt W0
  -- the packet after SetCheckSum
  have harith1 : (4294967295 - f) % 256 = (65535 - f) % 256 := by omega
  have harith2 : ((4294967295 - f) / 256) % 256 = (65535 - f) / 256 := by omega
  have hp' : VRRPPacket.SetCheckSum ⟨[b0, b1, b2, b3, b4, b5, 0, 0], gs, pold⟩ ph =
      ⟨[b0, b1, b2, b3, b4, b5, (65535 - f) % 256, (65535 - f) / 256], gs, pold⟩ := by
    rw [VRRPPacket.SetCheckSum]
    rw [VRRPPacket.mk.injEq]
    refine ⟨?_, rfl, rfl⟩
    rw [hT0, hcs0, ← hfdef, harith1, harith2]
    rfl
  -- the word sum of the serialized packet carries the complement
  have hps0 : W0 = pairSum ph.ToBytes +
      (pairSum [b0, b1, b2, b3, b4, b5, 0, 0] + pairSum gs.flatten) := by
    rw [hW0def, pairSum_append_even _ _ (by rw [pshToBytes_length]),
      pairSum_append_even _ _ (by simp)]
  have hps1 : pairSum (ph.ToBytes ++
      ([b0, b1, b2, b3, b4, b5, (65535 - f) % 256, (65535 - f) / 256] ++ gs.flatten)) =
      W0 + (65535 - f) := by
    rw [pairSum_append_even _ _ (by rw [pshToBytes_length]),
      pairSum_append_even _ _ (by simp), hps0, pairSum_eight, pairSum_eight]
    have : (65535 - f) % 256 + 256 * ((65535 - f) / 256) = 65535 - f := by omega
    omega
  have hstream1bytes :
      ∀ x ∈ ph.ToBytes ++
        ([b0, b1, b2, b3, b4, b5, (65535 - f) % 256, (65535 - f) / 256] ++ gs.flatten),
        x ≤ 255 := by
    refine bytes_append _ _ hphbytes (bytes_append _ _ ?_ hflatbytes)
    intro x hx
    simp only [List.mem_cons, List.not_mem_nil, or_false] at hx
    have hx1 : (65535 - f) % 256 ≤ 255 := by omega
    have hx2 : (65535 - f) / 256 ≤ 255 := by omega
    rcases hx with rfl | rfl | rfl | rfl | rfl | rfl | rfl | rfl
    · exact hHb _ (by simp)
    · exact hHb _ (by simp)
    · exact hHb _ (by simp)
    · exact hHb _ (by simp)
    · exact hHb _ (by simp)
    · exact hHb _ (by simp)
    · exact hx1
    · exact hx2
  have hstream1len :
      (ph.ToBytes ++
        ([b0, b1, b2, b3, b4, b5, (65535 - f) % 256, (65535 - f) / 256] ++
          gs.flatten)).length ≤ 65536 := by
    simp only [List.length_append, pshToBytes_length, List.length_cons, List.length_nil,
      hflatlen]
    omega
  have hcs1 : csum16 (ph.ToBytes ++
      ([b0, b1, b2, b3, b4, b5, (65535 - f) % 256, (65535 - f) / 256] ++ gs.flatten)) 0 =
      W0 + (65535 - f) := by
    rw [csum16_of_bytes _ hstream1bytes hstream1len, hps1]
  constructor
  · -- ValidateCheckSum
    rw [hp', VRRPPacket.ValidateCheckSum]
    rw [show VRRPPacket.ToBytes
        ⟨[b0, b1, b2, b3, b4, b5, (65535 - f) % 256, (65535 - f) / 256], gs, pold⟩ =
        [b0, b1, b2, b3, b4, b5, (65535 - f) % 256, (65535 - f) / 256] ++ gs.flatten
      from rfl]
    rw [hcs1, hfdef, foldCarry_complement]
    rfl
  · -- FromBytes round trip
    rw [hp']
    rw [show VRRPPacket.ToBytes
        ⟨[b0, b1, b2, b3, b4, b5, (65535 - f) % 256, (65535 - f) / 256], gs, pold⟩ =
        [b0, b1, b2, b3, b4, b5, (65535 - f) % 256, (65535 - f) / 256] ++ gs.flatten
      from rfl]
    have hlen8 : ([b0, b1, b2, b3, b4, b5, (65535 - f) % 256,
        (65535 - f) / 256] : List Nat).length = 8 := rfl
    have htotlen : (([b0, b1, b2, b3, b4, b5, (65535 - f) % 256, (65535 - f) / 256] ++
        gs.flatten) : List Nat).length = 8 + 4 * gs.length := by
      simp only [List.length_append, List.length_cons, List.length_nil, hflatlen]
    have htake : (([b0, b1, b2, b3, b4, b5, (65535 - f) % 256, (65535 - f) / 256] ++
        gs.flatten) : List Nat).take 8 =
        [b0, b1, b2, b3, b4, b5, (65535 - f) % 256, (65535 - f) / 256] :=
      take8_left _ _ hlen8
    have hdrop : (([b0, b1, b2, b3, b4, b5, (65535 - f) % 256, (65535 - f) / 256] ++
        gs.flatten) : List Nat).drop 8 = gs.flatten :=
      drop8_left _ _ hlen8
    have hread : readGroups gs.length gs.flatten = gs := by
      have := readGroups_of_groups gs [] hG
      rwa [List.append_nil] at this
    have hnotlt : ¬ (([b0, b1, b2, b3, b4, b5, (65535 - f) % 256,
        (65535 - f) / 256] ++ gs.flatten).length < 8) := by
      rw [htotlen]
      omega
    have hnotgt : ¬ (8 + gs.length * 4 > ([b0, b1, b2, b3, b4, b5, (65535 - f) % 256,
        (65535 - f) / 256] ++ gs.flatten).length) := by
      rw [htotlen]
      omega
    rcases hcount with ⟨hv, hcnt⟩ | ⟨hv, hcnt⟩
    · subst hv
      rw [← hcnt] at hnotgt hread
      rw [FromBytes, if_neg hnotlt, if_pos rfl, htake]
      rw [show ([b0, b1, b2, b3, b4, b5, (65535 - f) % 256,
          (65535 - f) / 256] : List Nat).getD 3 0 = b3 from rfl]
      rw [fromBytesTail, if_neg hnotgt, htake, hdrop, hread]
    · subst hv
      rw [← hcnt] at hnotgt hread
      rw [FromBytes, if_neg hnotlt, if_neg (by norm_num), if_pos rfl, htake]
      rw [show ([b0, b1, b2, b3, b4, b5, (65535 - f) % 256,
          (65535 - f) / 256] : List Nat).getD 3 0 = b3 from rfl]
      rw [fromBytesTail, if_neg hnotgt, htake, hdrop, hread]

/-- Witness for C2 at the canonical packet and pseudo-header. -/
theorem setCheckSum_roundtrip_witness :
    (canonPacket.SetCheckSum canonPshdr).ValidateCheckSum canonPshdr = true ∧
    FromBytes 4 (canonPacket.SetCheckSum canonPshdr).ToBytes =
      Except.ok { Header := (canonPacket.SetCheckSum canonPshdr).Header,
                  IPAddress := canonPacket.IPAddress, Pshdr := none } := by
  refine setCheckSum_roundtrip 4 canonPacket canonPshdr ?_ ?_ ?_ ?_ ?_ ?_ ?_ ?_ ?_ ?_ ?_ <;>
    decide

/-- Witness for C3 at the reference sample bytes (family 4). -/
theorem FromBytes_spec_witness :
    (FromBytes 4 [0x31, 0xF0, 0x64, 0x01, 0x00, 0x64, 0x06, 0x08, 0xC0, 0xA8, 0x00, 0xE6]).isOk
      = true := by
  exact (FromBytes_spec 4 _).1.mpr (by decide)

/-! ## VirtualRouter state machine (virtual_router.go) -/

/-- The fields of VirtualRouter that the event handler reads and writes.
Timer and socket handles are represented by the emitted `Action`s instead. -/
structure VirtualRouter where
  vrID : Nat
  priority : Nat
  state : Nat
  preempt : Bool
  owner : Bool
  advertisementInterval : Nat
  advertisementIntervalOfMaster : Nat
  skewTime : Nat
  masterDownInterval : Nat
  preferredSourceIP : List Nat
  deriving Repr, DecidableEq

/-- setPriority: ignored when the router is the owner. -/
def setPriority (Priority : Nat) (r : VirtualRouter) : VirtualRouter :=
  if r.owner then r else { r with priority := Priority }

/-- setMasterAdvInterval: store the interval (a uint16) and recompute
`skewTime = interval - interval*priority/256` and
`masterDownInterval = 3*interval + skewTime` (uint16 arithmetic, so the
latter wraps at 2^16).

The Go code computes `uint16(float32(interval)*float32(priority)/256)`:
both conversions are exact, the product is below 2^24 and hence exactly
representable in float32, the division by 256 is exact, and the uint16
conversion truncates, so the float expression equals `interval*priority/256`
in integer arithmetic. The uint16 subtraction cannot wrap because the
truncated quotient never exceeds `interval`. -/
def setMasterAdvInterval (Interval : Nat) (r : VirtualRouter) : VirtualRouter :=
  { r with
    advertisementIntervalOfMaster := Interval,
    skewTime := Interval - Interval * r.priority / 256,
    masterDownInterval := (3 * Interval + (Interval - Interval * r.priority / 256)) % 65536 }

/-- largerThan: false on length mismatch, otherwise the first strict
byte-wise comparison decides; equal lists give false. -/
def largerThanLoop : List Nat → List Nat → Bool
  | x :: xs, y :: ys => if x > y then true else if x < y then false else largerThanLoop xs ys
  | _, _ => false

def largerThan (ip1 ip2 : List Nat) : Bool :=
  if ip1.length ≠ ip2.length then false else largerThanLoop ip1 ip2

/-- The source address of a queued packet: the event handler dereferences
`packet.Pshdr.Saddr`; every packet placed on the queue by a ReadMessage has
its `Pshdr` set, so the default is never reached on real queue contents. -/
def VRRPPacket.saddr (packet : VRRPPacket) : List Nat :=
  match packet.Pshdr with
  | some ps => ps.Saddr
  | none => []

/-- The externally visible side effects of one event-handler iteration:
timer manipulations (durations in centiseconds), the advertisement sends
(carrying the priority field the assembled packet gets from `r.priority`),
address announcements and transition-handler invocations. -/
inductive Action where
  | sendAdvert (priority : Nat)
  | announceAll
  | makeAdvertTicker (interval : Nat)
  | stopAdvertTicker
  | makeMasterDownTimer (d : Nat)
  | stopMasterDownTimer
  | resetMasterDownTimer (d : Nat)
  | stateChanged (t : Nat)
  deriving Repr, DecidableEq

/-- One input consumed by one iteration of the eventHandler select:
an event from the event channel, a packet from the queue, a tick of the
advertisement ticker, or the firing of the master-down timer. -/
inductive Input where
  | event (e : Nat)
  | packet (p : VRRPPacket)
  | advertTick
  | masterDownFire
  deriving Repr, DecidableEq

/-- One iteration of `VirtualRouter.eventHandler`: dispatch on the current
state and the select case, returning the updated router and the emitted
side effects in program order. Inputs that the state's select does not act
upon leave the router unchanged. -/
def eventHandlerStep (r : VirtualRouter) (input : Input) : VirtualRouter × List Action :=
  if r.state = INIT then
    match input with
    | Input.event e =>
      if e = START then
        if r.priority = 255 ∨ r.owner then
          ({ r with state := MASTER },
            [Action.sendAdvert r.priority, Action.announceAll,
              Action.makeAdvertTicker r.advertisementInterval,
              Action.stateChanged Init2Master])
        else
          (({ setMasterAdvInterval r.advertisementInterval r with state := BACKUP }),
            [Action.makeMasterDownTimer
                (setMasterAdvInterval r.advertisementInterval r).masterDownInterval,
              Action.stateChanged Init2Backup])
      else (r, [])
    | _ => (r, [])
  else if r.state = MASTER then
    match input with
    | Input.event e =>
      if e = SHUTDOWN then
        ({ setPriority r.priority (setPriority 0 r) with state := INIT },
          [Action.stopAdvertTicker, Action.sendAdvert (setPriority 0 r).priority,
            Action.stateChanged Master2Init])
      else (r, [])
    | Input.advertTick => (r, [Action.sendAdvert r.priority])
    | Input.packet p =>
      if p.GetPriority > r.priority ∨
          (p.GetPriority = r.priority ∧ largerThan p.saddr r.preferredSourceIP) then
        ({ setMasterAdvInterval p.GetAdvertisementInterval r with state := BACKUP },
          [Action.stopAdvertTicker,
            Action.makeMasterDownTimer
              (setMasterAdvInterval p.GetAdvertisementInterval r).masterDownInterval,
            Action.stateChanged Master2Backup])
      else (r, [])
    | _ => (r, [])
  else if r.state = BACKUP then
    match input with
    | Input.event e =>
      if e = SHUTDOWN then
        ({ r with state := INIT },
          [Action.stopMasterDownTimer, Action.stateChanged Backup2Init])
      else (r, [])
    | Input.packet p =>
      if p.GetPriority = 0 then
        (r, [Action.resetMasterDownTimer r.skewTime])
      else
        if r.preempt = false ∨ p.GetPriority > r.priority ∨
            (p.GetPriority = r.priority ∧ largerThan p.saddr r.preferredSourceIP) then
          (setMasterAdvInterval p.GetAdvertisementInterval r,
            [Action.resetMasterDownTimer
                (setMasterAdvInterval p.GetAdvertisementInterval r).masterDownInterval])
        else (r, [])
    | Input.masterDownFire =>
      ({ r with state := MASTER },
        [Action.sendAdvert r.priority, Action.announceAll,
          Action.makeAdvertTicker r.advertisementInterval,
          Action.stateChanged Backup2Master])
    | _ => (r, [])
  else (r, [])

/-! ## Concrete routers and packets used as witnesses / counterexamples -/

def masterRouter100 : VirtualRouter :=
  { vrID := 240, priority := 100, state := MASTER, preempt := true, owner := false,
    advertisementInterval := 100, advertisementIntervalOfMaster := 100,
    skewTime := 61, masterDownInterval := 361, preferredSourceIP := [192, 168, 0, 220] }

def ownerMasterRouter : VirtualRouter :=
  { vrID := 240, priority := 255, state := MASTER, preempt := true, owner := true,
    advertisementInterval := 100, advertisementIntervalOfMaster := 100,
    skewTime := 1, masterDownInterval := 301, preferredSourceIP := [192, 168, 0, 220] }

def backupRouter100 : VirtualRouter :=
  { vrID := 240, priority := 100, state := BACKUP, preempt := true, owner := false,
    advertisementInterval := 100, advertisementIntervalOfMaster := 100,
    skewTime := 61, masterDownInterval := 361, preferredSourceIP := [192, 168, 0, 220] }

def routerP0 : VirtualRouter :=
  { vrID := 240, priority := 0, state := BACKUP, preempt := true, owner := false,
    advertisementInterval := 100, advertisementIntervalOfMaster := 100,
    skewTime := 100, masterDownInterval := 400, preferredSourceIP := [192, 168, 0, 220] }

def prio0Packet : VRRPPacket :=
  { Header := [0x31, 240, 0, 1, 0, 100, 0, 0], IPAddress := [[192, 168, 0, 230]],
    Pshdr := some canonPshdr }

def prio200Packet : VRRPPacket :=
  { Header := [0x31, 240, 200, 1, 0, 100, 0, 0], IPAddress := [[192, 168, 0, 230]],
    Pshdr := some canonPshdr }

/-! ## C4: Master SHUTDOWN behaviour -/

/-- C4 counterexample: for the owner Master (owner = true, configured
priority 255), the final SHUTDOWN advertisement carries priority 255, not 0,
because `setPriority` ignores requests when the router is the owner. -/
theorem master_shutdown_counterexample :
    Action.sendAdvert 0 ∉ (eventHandlerStep ownerMasterRouter (Input.event SHUTDOWN)).2 ∧
    (eventHandlerStep ownerMasterRouter (Input.event SHUTDOWN)).2 =
      [Action.stopAdvertTicker, Action.sendAdvert 255, Action.stateChanged Master2Init] := by
  decide

/-- C4 (amended): for every router in Master state, a SHUTDOWN event stops
the advertisement ticker, emits exactly one advertisement whose priority
field is 0 when the router is not the owner (and the configured priority
when it is, since `setPriority` ignores owners), leaves the stored priority
unchanged afterwards, and sets the state to Initialize. -/
theorem master_shutdown (r : VirtualRouter) (hs : r.state = MASTER) :
    eventHandlerStep r (Input.event SHUTDOWN) =
      ({ r with state := INIT },
        [Action.stopAdvertTicker,
          Action.sendAdvert (if r.owner then r.priority else 0),
          Action.stateChanged Master2Init]) := by
  obtain ⟨vr, pri, st, pre, ow, ai, aim, sk, mdi, src⟩ := r
  have hs2 : st = MASTER := hs
  subst hs2
  cases ow
  · rfl
  · rfl

/-- Witness for C4 at a concrete non-owner Master. -/
theorem master_shutdown_witness :
    eventHandlerStep masterRouter100 (Input.event SHUTDOWN) =
      ({ masterRouter100 with state := INIT },
        [Action.stopAdvertTicker,
          Action.sendAdvert (if masterRouter100.owner then masterRouter100.priority else 0),
          Action.stateChanged Master2Init]) :=
  master_shutdown masterRouter100 rfl

/-! ## C5 / C6: receive paths of the state machine -/

theorem step_backup_packet (r : VirtualRouter) (p : VRRPPacket) (hs : r.state = BACKUP) :
    eventHandlerStep r (Input.packet p) =
      if p.GetPriority = 0 then (r, [Action.resetMasterDownTimer r.skewTime])
      else
        if r.preempt = false ∨ p.GetPriority > r.priority ∨
            (p.GetPriority = r.priority ∧ largerThan p.saddr r.preferredSourceIP) then
          (setMasterAdvInterval p.GetAdvertisementInterval r,
            [Action.resetMasterDownTimer
                (setMasterAdvInterval p.GetAdvertisementInterval r).masterDownInterval])
        else (r, []) := by
  have h1 : ¬ r.state = INIT := by rw [hs]; decide
  have h2 : ¬ r.state = MASTER := by rw [hs]; decide
  rw [eventHandlerStep, if_neg h1, if_neg h2, if_pos hs]

theorem step_master_packet (r : VirtualRouter) (p : VRRPPacket) (hs : r.state = MASTER) :
    eventHandlerStep r (Input.packet p) =
      if p.GetPriority > r.priority ∨
          (p.GetPriority = r.priority ∧ largerThan p.saddr r.preferredSourceIP) then
        ({ setMasterAdvInterval p.GetAdvertisementInterval r with state := BACKUP },
          [Action.stopAdvertTicker,
            Action.makeMasterDownTimer
              (setMasterAdvInterval p.GetAdvertisementInterval r).masterDownInterval,
            Action.stateChanged Master2Backup])
      else (r, []) := by
  have h1 : ¬ r.state = INIT := by rw [hs]; decide
  rw [eventHandlerStep, if_neg h1, if_pos hs]

/-- C5: a Backup receiving an advertisement with matching VRID re-arms the
master-down timer to skew_time on priority 0 (state and fields unchanged);
otherwise, when preempt is off or the sender wins the priority / source-IP
comparison, it adopts the sender's interval (recomputing skew_time and
master_down_interval through setMasterAdvInterval) and re-arms the timer to
the new master_down_interval; in every other case nothing changes. -/
theorem backup_receive (r : VirtualRouter) (p : VRRPPacket) (hs : r.state = BACKUP)
    (_hid : p.GetVirtualRouterID = r.vrID) :
    (p.GetPriority = 0 →
      eventHandlerStep r (Input.packet p) =
        (r, [Action.resetMasterDownTimer r.skewTime])) ∧
    (p.GetPriority ≠ 0 →
      (r.preempt = false ∨ p.GetPriority > r.priority ∨
        (p.GetPriority = r.priority ∧ largerThan p.saddr r.preferredSourceIP)) →
      eventHandlerStep r (Input.packet p) =
        (setMasterAdvInterval p.GetAdvertisementInterval r,
          [Action.resetMasterDownTimer
              (setMasterAdvInterval p.GetAdvertisementInterval r).masterDownInterval])) ∧
    (p.GetPriority ≠ 0 →
      ¬(r.preempt = false ∨ p.GetPriority > r.priority ∨
        (p.GetPriority = r.priority ∧ largerThan p.saddr r.preferredSourceIP)) →
      eventHandlerStep r (Input.packet p) = (r, [])) ∧
    ((eventHandlerStep r (Input.packet p)).1.state = BACKUP) := by
  rw [step_backup_packet r p hs]
  refine ⟨fun h0 => by rw [if_pos h0], fun hne hcond => ?_, fun hne hcond => ?_, ?_⟩
  · rw [if_neg hne, if_pos hcond]
  · rw [if_neg hne, if_neg hcond]
  · by_cases h0 : p.GetPriority = 0
    · rw [if_pos h0]
      exact hs
    · rw [if_neg h0]
      by_cases hcond : r.preempt = false ∨ p.GetPriority > r.priority ∨
          (p.GetPriority = r.priority ∧ largerThan p.saddr r.preferredSourceIP)
      · rw [if_pos hcond]
        exact hs
      · rw [if_neg hcond]
        exact hs

/-- Witness for C5 at a concrete Backup router and a priority-0 packet. -/
theorem backup_receive_witness :
    eventHandlerStep backupRouter100 (Input.packet prio0Packet) =
      (backupRouter100, [Action.resetMasterDownTimer backupRouter100.skewTime]) :=
  (backup_receive backupRouter100 prio0Packet rfl rfl).1 rfl

/-- C6: a Master receiving an advertisement with matching VRID transitions
to Backup (stopping the ticker, adopting the sender's interval, arming the
master-down timer) exactly when the sender's priority is greater, or equal
with a byte-wise greater source IP; otherwise, and in particular for a
priority-0 advertisement (the configured priority being at least 1), the
router and its timers are unchanged. -/
theorem master_receive (r : VirtualRouter) (p : VRRPPacket) (hs : r.state = MASTER)
    (hpr1 : 1 ≤ r.priority) (_hpr255 : r.priority ≤ 255)
    (_hid : p.GetVirtualRouterID = r.vrID) :
    (((eventHandlerStep r (Input.packet p)).1.state = BACKUP) ↔
      (p.GetPriority > r.priority ∨
        (p.GetPriority = r.priority ∧ largerThan p.saddr r.preferredSourceIP))) ∧
    ((p.GetPriority > r.priority ∨
        (p.GetPriority = r.priority ∧ largerThan p.saddr r.preferredSourceIP)) →
      eventHandlerStep r (Input.packet p) =
        ({ setMasterAdvInterval p.GetAdvertisementInterval r with state := BACKUP },
          [Action.stopAdvertTicker,
            Action.makeMasterDownTimer
              (setMasterAdvInterval p.GetAdvertisementInterval r).masterDownInterval,
            Action.stateChanged Master2Backup])) ∧
    (¬(p.GetPriority > r.priority ∨
        (p.GetPriority = r.priority ∧ largerThan p.saddr r.preferredSourceIP)) →
      eventHandlerStep r (Input.packet p) = (r, [])) ∧
    (p.GetPriority = 0 → eventHandlerStep r (Input.packet p) = (r, [])) := by
  rw [step_master_packet r p hs]
  have hzero : p.GetPriority = 0 →
      ¬(p.GetPriority > r.priority ∨
        (p.GetPriority = r.priority ∧ largerThan p.saddr r.preferredSourceIP)) := by
    intro h0 hcond
    rcases hcond with h | ⟨h, _⟩ <;> omega
  refine ⟨?_, fun hcond => by rw [if_pos hcond], fun hcond => by rw [if_neg hcond],
    fun h0 => by rw [if_neg (hzero h0)]⟩
  by_cases hcond : p.GetPriority > r.priority ∨
      (p.GetPriority = r.priority ∧ largerThan p.saddr r.preferredSourceIP)
  · rw [if_pos hcond]
    exact ⟨fun _ => hcond, fun _ => rfl⟩
  · rw [if_neg hcond]
    refine ⟨fun hb => absurd (hs ▸ hb : MASTER = BACKUP) (by decide), fun hc => absurd hc hcond⟩

/-- Witness for C6 at a concrete Master and a higher-priority packet. -/
theorem master_receive_witness :
    eventHandlerStep masterRouter100 (Input.packet prio200Packet) =
      ({ setMasterAdvInterval prio200Packet.GetAdvertisementInterval masterRouter100 with
          state := BACKUP },
        [Action.stopAdvertTicker,
          Action.makeMasterDownTimer
            (setMasterAdvInterval prio200Packet.GetAdvertisementInterval
              masterRouter100).masterDownInterval,
          Action.stateChanged Master2Backup]) :=
  (master_receive masterRouter100 prio200Packet rfl (by decide) (by decide) rfl).2.1
    (Or.inl (by decide))

/-! ## C7: skew time and master-down interval arithmetic -/

/-- C7 counterexample: at priority 0 and interval 65535 the stored
master_down_interval is 65532 (uint16 wrap-around), not
3·65535 + skew_time = 262140. -/
theorem setMasterAdvInterval_counterexample :
    (setMasterAdvInterval 65535 routerP0).skewTime = 65535 ∧
    (setMasterAdvInterval 65535 routerP0).masterDownInterval = 65532 ∧
    3 * 65535 + (setMasterAdvInterval 65535 routerP0).skewTime = 262140 ∧
    (setMasterAdvInterval 65535 routerP0).masterDownInterval ≠
      3 * 65535 + (setMasterAdvInterval 65535 routerP0).skewTime := by
  decide

/-- C7 (amended): for every priority 0-255 and every 16-bit interval, the
stored skew_time equals `interval - ⌊interval·priority/256⌋` exactly (the
float32 computation is exact in this range), and the stored
master_down_interval equals `(3·interval + skew_time) mod 2^16` — equal to
`3·interval + skew_time` itself exactly when that sum fits in 16 bits,
which holds for every interval representable in the 12-bit wire field. -/
theorem setMasterAdvInterval_spec (r : VirtualRouter) (i : Nat)
    (_hpr : r.priority ≤ 255) (_hi : i < 65536) :
    (setMasterAdvInterval i r).skewTime = i - i * r.priority / 256 ∧
    (setMasterAdvInterval i r).masterDownInterval =
      (3 * i + (setMasterAdvInterval i r).skewTime) % 65536 ∧
    (3 * i + (setMasterAdvInterval i r).skewTime < 65536 →
      (setMasterAdvInterval i r).masterDownInterval =
        3 * i + (setMasterAdvInterval i r).skewTime) ∧
    (i < 4096 →
      (setMasterAdvInterval i r).masterDownInterval =
        3 * i + (setMasterAdvInterval i r).skewTime) := by
  refine ⟨rfl, rfl, fun h => Nat.mod_eq_of_lt h, fun h => Nat.mod_eq_of_lt ?_⟩
  have hskew : i - i * r.priority / 256 ≤ i := Nat.sub_le _ _
  show 3 * i + (i - i * r.priority / 256) < 65536
  omega

/-- Witness for C7 at the concrete Master router and interval 100. -/
theorem setMasterAdvInterval_spec_witness :
    (setMasterAdvInterval 100 masterRouter100).skewTime =
      100 - 100 * masterRouter100.priority / 256 ∧
    (setMasterAdvInterval 100 masterRouter100).masterDownInterval =
      (3 * 100 + (setMasterAdvInterval 100 masterRouter100).skewTime) % 65536 ∧
    (3 * 100 + (setMasterAdvInterval 100 masterRouter100).skewTime < 65536 →
      (setMasterAdvInterval 100 masterRouter100).masterDownInterval =
        3 * 100 + (setMasterAdvInterval 100 masterRouter100).skewTime) ∧
    (100 < 4096 →
      (setMasterAdvInterval 100 masterRouter100).masterDownInterval =
        3 * 100 + (setMasterAdvInterval 100 masterRouter100).skewTime) :=
  setMasterAdvInterval_spec masterRouter100 100 (by decide) (by decide)

/-! ## C10: largerThan -/

theorem largerThanLoop_self (a : List Nat) : largerThanLoop a a = false := by
  induction a with
  | nil => rfl
  | cons x xs ih =>
    rw [largerThanLoop, if_neg (lt_irrefl x), if_neg (lt_irrefl x), ih]

theorem largerThanLoop_iff (a : List Nat) :
    ∀ b : List Nat, a.length = b.length →
      (largerThanLoop a b = true ↔ List.Lex (· < ·) b a) := by
  induction a with
  | nil =>
    intro b hlen
    obtain rfl : b = [] := by
      cases b
      · rfl
      · simp at hlen
    constructor
    · intro h
      cases h
    · intro h
      cases h
  | cons x xs ih =>
    intro b hlen
    obtain ⟨y, ys, rfl⟩ : ∃ y ys, b = y :: ys := by
      cases b
      · simp at hlen
      · exact ⟨_, _, rfl⟩
    simp only [List.length_cons, Nat.succ.injEq] at hlen
    rw [largerThanLoop]
    by_cases hgt : x > y
    · rw [if_pos hgt]
      exact ⟨fun _ => List.Lex.rel hgt, fun _ => rfl⟩
    · rw [if_neg hgt]
      by_cases hlt : x < y
      · rw [if_pos hlt]
        constructor
        · intro h
          cases h
        · intro h
          cases h with
          | rel h => omega
          | cons h => omega
      · rw [if_neg hlt]
        have hxy : x = y := by omega
        subst hxy
        rw [ih ys hlen]
        constructor
        · intro h
          exact List.Lex.cons h
        · intro h
          cases h with
          | rel h => omega
          | cons h => exact h

/-- C10: largerThan is true exactly for equal-length, lexicographically
strictly greater byte strings; it is false whenever the lengths differ and
on equal inputs — so the equal-priority source-IP tiebreak can never fire
when the two addresses are stored with different lengths. -/
theorem largerThan_spec (a b : List Nat) :
    (largerThan a b = true ↔ a.length = b.length ∧ List.Lex (· < ·) b a) ∧
    (a.length ≠ b.length → largerThan a b = false) ∧
    largerThan a a = false := by
  refine ⟨?_, fun hne => by rw [largerThan, if_pos hne], ?_⟩
  · by_cases hlen : a.length = b.length
    · rw [largerThan, if_neg (fun h => h hlen), largerThanLoop_iff a b hlen]
      exact ⟨fun h => ⟨hlen, h⟩, fun h => h.2⟩
    · rw [largerThan, if_pos hlen]
      constructor
      · intro h
        cases h
      · intro h
        exact absurd h.1 hlen
  · rw [largerThan, if_neg (fun h => h rfl), largerThanLoop_self]

/-- Witness for C10 at two concrete addresses differing in the last byte. -/
theorem largerThan_spec_witness :
    ([10, 0, 0, 20] : List Nat).length = ([10, 0, 0, 10] : List Nat).length ∧
    List.Lex (· < ·) [10, 0, 0, 10] [10, 0, 0, 20] :=
  (largerThan_spec [10, 0, 0, 20] [10, 0, 0, 10]).1.mp (by decide)

/-! ## C8: ReadMessage check chains (vrrp_conn.go and the revised variant)

The socket I/O itself is external; each function below models the pure
processing a ReadMessage performs on one received datagram after the read
syscall returned: the length / header / TTL checks, FromBytes, the version
check, and the checksum validation against the pseudo-header built from the
datagram's addresses. -/

/-- `net.IPv4(a,b,c,d).To16()`: the 16-byte IPv4-mapped form. -/
def ipv4To16 (a b c d : Nat) : List Nat :=
  [0, 0, 0, 0, 0, 0, 0, 0, 0, 0, 255, 255, a, b, c, d]

/-- The pseudo-header IPv4VRRPMsgCon.ReadMessage builds: source from IP
header bytes 12-15, destination from 16-19, protocol 112, length equal to
the datagram length minus the IP header length (a uint16). -/
def ipv4PshdrOf (buffer : List Nat) : PseudoHeader :=
  { Saddr := ipv4To16 (buffer.getD 12 0) (buffer.getD 13 0) (buffer.getD 14 0)
      (buffer.getD 15 0),
    Daddr := ipv4To16 (buffer.getD 16 0) (buffer.getD 17 0) (buffer.getD 18 0)
      (buffer.getD 19 0),
    Zero := 0, Protocol := VRRPIPProtocolNumber,
    Len := (buffer.length - ((Nat.land (buffer.getD 0 0) 0x0F) <<< 2)) % 65536 }

/-- IPv4VRRPMsgCon.ReadMessage of vrrp_conn.go: `buffer` is the raw IP
datagram (including its header) as read from the socket. -/
def IPv4ReadMessage (buffer : List Nat) : Except String VRRPPacket :=
  if buffer.length < 20 then
    Except.error "IP datagram length too small"
  else if (Nat.land (buffer.getD 0 0) 0x0F) <<< 2 > buffer.length then
    Except.error "the header length is larger than total length"
  else if buffer.getD 8 0 ≠ 255 then
    Except.error "the TTL of IP datagram carrying VRRP advertisement must equal to 255"
  else
    match FromBytes 4 (buffer.drop ((Nat.land (buffer.getD 0 0) 0x0F) <<< 2)) with
    | Except.error e => Except.error e
    | Except.ok advertisement =>
      if advertisement.GetVersion ≠ 3 then
        Except.error "received an advertisement with another version"
      else if advertisement.ValidateCheckSum (ipv4PshdrOf buffer) = false then
        Except.error "validate the check sum of advertisement failed"
      else
        Except.ok { advertisement with Pshdr := some (ipv4PshdrOf buffer) }

/-- IPv6VRRPMsgCon.ReadMessage of vrrp_conn.go after the ancillary-data
scan: `buffer` is the full receive buffer handed to FromBytes, `buffern`
the number of bytes read, `TTL` the received hop limit, `dst` the
ancillary destination address and `src` the peer address. -/
def IPv6ReadMessage (buffer : List Nat) (buffern TTL : Nat) (dst src : List Nat) :
    Except String VRRPPacket :=
  match FromBytes 6 buffer with
  | Except.error e => Except.error e
  | Except.ok advertisement =>
    if TTL ≠ 255 then
      Except.error "invalid HOPLIMIT"
    else if advertisement.GetVersion ≠ 3 then
      Except.error "invalid VRRP version"
    else if advertisement.ValidateCheckSum
        ⟨src, dst, 0, VRRPIPProtocolNumber, buffern % 65536⟩ = false then
      Except.error "invalid check sum"
    else
      Except.ok { advertisement with
        Pshdr := some ⟨src, dst, 0, VRRPIPProtocolNumber, buffern % 65536⟩ }

/-- IPv4VRRPMsgCon.ReadMessage of the revised connection file: the packet
connection delivers the payload `buffer` with the control-message TTL and
source / destination addresses. -/
def IPv4ReadMessageCM (TTL : Nat) (buffer : List Nat) (src dst : List Nat) :
    Except String VRRPPacket :=
  if TTL ≠ 255 then
    Except.error "the TTL of IP datagram carrying VRRP advertisement must equal to 255"
  else
    match FromBytes 4 buffer with
    | Except.error e => Except.error e
    | Except.ok advertisement =>
      if advertisement.GetVersion ≠ 3 then
        Except.error "received an advertisement with another version"
      else if advertisement.ValidateCheckSum
          ⟨src, dst, 0, VRRPIPProtocolNumber, buffer.length % 65536⟩ = false then
        Except.error "validate the check sum of advertisement failed"
      else
        Except.ok { advertisement with
          Pshdr := some ⟨src, dst, 0, VRRPIPProtocolNumber, buffer.length % 65536⟩ }

/-- C8: each ReadMessage variant returns a packet only when the TTL /
hop-limit equals 255, the decoded version is 3, and the checksum validates
against the pseudo-header built from the datagram's addresses; otherwise it
returns an error and no packet. -/
theorem readMessage_checks :
    (∀ buffer : List Nat, ∀ q, IPv4ReadMessage buffer = Except.ok q →
      buffer.getD 8 0 = 255 ∧ q.GetVersion = 3 ∧
      q.ValidateCheckSum (ipv4PshdrOf buffer) = true) ∧
    (∀ (buffer : List Nat) (buffern TTL : Nat) (dst src : List Nat) q,
      IPv6ReadMessage buffer buffern TTL dst src = Except.ok q →
      TTL = 255 ∧ q.GetVersion = 3 ∧
      q.ValidateCheckSum ⟨src, dst, 0, VRRPIPProtocolNumber, buffern % 65536⟩ = true) ∧
    (∀ (TTL : Nat) (buffer src dst : List Nat) (q : VRRPPacket),
      IPv4ReadMessageCM TTL buffer src dst = Except.ok q →
      TTL = 255 ∧ q.GetVersion = 3 ∧
      q.ValidateCheckSum ⟨src, dst, 0, VRRPIPProtocolNumber, buffer.length % 65536⟩ = true) := by
  refine ⟨?_, ?_, ?_⟩
  · intro buffer q hp
    rw [IPv4ReadMessage] at hp
    split at hp
    · cases hp
    split at hp
    · cases hp
    split at hp
    · cases hp
    next hTTL =>
    split at hp
    · cases hp
    next adv hFB =>
    split at hp
    · cases hp
    next hver =>
    split at hp
    · cases hp
    next hcs =>
    rw [Except.ok.injEq] at hp
    subst hp
    refine ⟨by omega, ?_, ?_⟩
    · have hv : adv.GetVersion = 3 := by omega
      exact hv
    · have hc : adv.ValidateCheckSum (ipv4PshdrOf buffer) = true := by
        cases hb : adv.ValidateCheckSum (ipv4PshdrOf buffer)
        · exact absurd hb hcs
        · rfl
      exact hc
  · intro buffer buffern TTL dst src q hp
    rw [IPv6ReadMessage] at hp
    split at hp
    · cases hp
    next adv hFB =>
    split at hp
    · cases hp
    next hTTL =>
    split at hp
    · cases hp
    next hver =>
    split at hp
    · cases hp
    next hcs =>
    rw [Except.ok.injEq] at hp
    subst hp
    refine ⟨by omega, ?_, ?_⟩
    · have hv : adv.GetVersion = 3 := by omega
      exact hv
    · have hc : adv.ValidateCheckSum
          ⟨src, dst, 0, VRRPIPProtocolNumber, buffern % 65536⟩ = true := by
        cases hb : adv.ValidateCheckSum ⟨src, dst, 0, VRRPIPProtocolNumber, buffern % 65536⟩
        · exact absurd hb hcs
        · rfl
      exact hc
  · intro TTL buffer src dst q hp
    rw [IPv4ReadMessageCM] at hp
    split at hp
    · cases hp
    next hTTL =>
    split at hp
    · cases hp
    next adv hFB =>
    split at hp
    · cases hp
    next hver =>
    split at hp
    · cases hp
    next hcs =>
    rw [Except.ok.injEq] at hp
    subst hp
    refine ⟨by omega, ?_, ?_⟩
    · have hv : adv.GetVersion = 3 := by omega
      exact hv
    · have hc : adv.ValidateCheckSum
          ⟨src, dst, 0, VRRPIPProtocolNumber, buffer.length % 65536⟩ = true := by
        cases hb : adv.ValidateCheckSum
            ⟨src, dst, 0, VRRPIPProtocolNumber, buffer.length % 65536⟩
        · exact absurd hb hcs
        · rfl
      exact hc

theorem validateCheckSum_of_csum (p : VRRPPacket) (psh : PseudoHeader)
    (h : csum16 (psh.ToBytes ++ p.ToBytes) 0 % 65535 = 0)
    (hpos : 0 < csum16 (psh.ToBytes ++ p.ToBytes) 0) :
    p.ValidateCheckSum psh = true := by
  rw [VRRPPacket.ValidateCheckSum]
  have h1 := foldCarry_lt (csum16 (psh.ToBytes ++ p.ToBytes) 0)
  have h2 := foldCarry_modeq (csum16 (psh.ToBytes ++ p.ToBytes) 0)
  have h3 := foldCarry_pos _ hpos
  have h4 : foldCarry (csum16 (psh.ToBytes ++ p.ToBytes) 0) = 65535 := by omega
  rw [h4]
  rfl

theorem IPv4ReadMessage_ok (buffer : List Nat) (adv : VRRPPacket)
    (h1 : ¬ buffer.length < 20)
    (h2 : ¬ (Nat.land (buffer.getD 0 0) 0x0F) <<< 2 > buffer.length)
    (h3 : ¬ buffer.getD 8 0 ≠ 255)
    (h4 : FromBytes 4 (buffer.drop ((Nat.land (buffer.getD 0 0) 0x0F) <<< 2)) = Except.ok adv)
    (h5 : ¬ adv.GetVersion ≠ 3)
    (h6 : adv.ValidateCheckSum (ipv4PshdrOf buffer) = true) :
    IPv4ReadMessage buffer = Except.ok { adv with Pshdr := some (ipv4PshdrOf buffer) } := by
  rw [IPv4ReadMessage, if_neg h1, if_neg h2, if_neg h3, h4]
  show (if adv.GetVersion ≠ 3 then
      Except.error "received an advertisement with another version"
    else if adv.ValidateCheckSum (ipv4PshdrOf buffer) = false then
      Except.error "validate the check sum of advertisement failed"
    else
      Except.ok { adv with Pshdr := some (ipv4PshdrOf buffer) }) =
    Except.ok { adv with Pshdr := some (ipv4PshdrOf buffer) }
  rw [if_neg h5, if_neg (show ¬ adv.ValidateCheckSum (ipv4PshdrOf buffer) = false by
    rw [h6]; decide)]

theorem IPv6ReadMessage_ok (buffer : List Nat) (buffern TTL : Nat) (dst src : List Nat)
    (adv : VRRPPacket)
    (h4 : FromBytes 6 buffer = Except.ok adv)
    (h3 : ¬ TTL ≠ 255)
    (h5 : ¬ adv.GetVersion ≠ 3)
    (h6 : adv.ValidateCheckSum ⟨src, dst, 0, VRRPIPProtocolNumber, buffern % 65536⟩ = true) :
    IPv6ReadMessage buffer buffern TTL dst src =
      Except.ok { adv with
        Pshdr := some ⟨src, dst, 0, VRRPIPProtocolNumber, buffern % 65536⟩ } := by
  rw [IPv6ReadMessage, h4]
  show (if TTL ≠ 255 then
      Except.error "invalid HOPLIMIT"
    else if adv.GetVersion ≠ 3 then
      Except.error "invalid VRRP version"
    else if adv.ValidateCheckSum ⟨src, dst, 0, VRRPIPProtocolNumber, buffern % 65536⟩ = false
        then
      Except.error "invalid check sum"
    else
      Except.ok { adv with
        Pshdr := some ⟨src, dst, 0, VRRPIPProtocolNumber, buffern % 65536⟩ }) =
    Except.ok { adv with Pshdr := some ⟨src, dst, 0, VRRPIPProtocolNumber, buffern % 65536⟩ }
  rw [if_neg h3, if_neg h5, if_neg (show ¬ adv.ValidateCheckSum
      ⟨src, dst, 0, VRRPIPProtocolNumber, buffern % 65536⟩ = false by rw [h6]; decide)]

theorem IPv4ReadMessageCM_ok (TTL : Nat) (buffer src dst : List Nat) (adv : VRRPPacket)
    (h3 : ¬ TTL ≠ 255)
    (h4 : FromBytes 4 buffer = Except.ok adv)
    (h5 : ¬ adv.GetVersion ≠ 3)
    (h6 : adv.ValidateCheckSum
      ⟨src, dst, 0, VRRPIPProtocolNumber, buffer.length % 65536⟩ = true) :
    IPv4ReadMessageCM TTL buffer src dst =
      Except.ok { adv with
        Pshdr := some ⟨src, dst, 0, VRRPIPProtocolNumber, buffer.length % 65536⟩ } := by
  rw [IPv4ReadMessageCM, if_neg h3, h4]
  show (if adv.GetVersion ≠ 3 then
      Except.error "received an advertisement with another version"
    else if adv.ValidateCheckSum
        ⟨src, dst, 0, VRRPIPProtocolNumber, buffer.length % 65536⟩ = false then
      Except.error "validate the check sum of advertisement failed"
    else
      Except.ok { adv with
        Pshdr := some ⟨src, dst, 0, VRRPIPProtocolNumber, buffer.length % 65536⟩ }) =
    Except.ok { adv with
      Pshdr := some ⟨src, dst, 0, VRRPIPProtocolNumber, buffer.length % 65536⟩ }
  rw [if_neg h5, if_neg (show ¬ adv.ValidateCheckSum
      ⟨src, dst, 0, VRRPIPProtocolNumber, buffer.length % 65536⟩ = false by rw [h6]; decide)]

/-- A raw IP datagram carrying the reference sample: 20-byte IPv4 header
(TTL 255, protocol 112, source 192.168.0.220, destination 224.0.0.18)
followed by the canonical advertisement bytes. -/
def sampleDatagram : List Nat :=
  [0x45, 0, 0, 0, 0, 0, 0, 0, 255, 112, 0, 0, 192, 168, 0, 220, 224, 0, 0, 18,
   0x31, 0xF0, 0x64, 0x01, 0x00, 0x64, 0x06, 0x08, 0xC0, 0xA8, 0x00, 0xE6]

def sampleIPv4Decoded : VRRPPacket :=
  { Header := [0x31, 0xF0, 0x64, 0x01, 0x00, 0x64, 0x06, 0x08],
    IPAddress := [[192, 168, 0, 230]], Pshdr := none }

/-- A 24-byte IPv6 advertisement (vrid 7, priority 100, one address
fe80::7) whose checksum is valid for source fe80::1 and destination
ff02::12 with length 24. -/
def sampleV6Buffer : List Nat :=
  [0x31, 7, 100, 1, 0, 100, 109, 236,
   0xFE, 0x80, 0, 0, 0, 0, 0, 0, 0, 0, 0, 0, 0, 0, 0, 7]

def sampleV6Src : List Nat := [0xFE, 0x80, 0, 0, 0, 0, 0, 0, 0, 0, 0, 0, 0, 0, 0, 1]

def sampleV6Dst : List Nat := [0xFF, 2, 0, 0, 0, 0, 0, 0, 0, 0, 0, 0, 0, 0, 0, 0x12]

def sampleV6Decoded : VRRPPacket :=
  { Header := [0x31, 7, 100, 1, 0, 100, 109, 236],
    IPAddress := [[0xFE, 0x80, 0, 0], [0, 0, 0, 0], [0, 0, 0, 0], [0, 0, 0, 7]],
    Pshdr := none }

def sampleCMBuffer : List Nat :=
  [0x31, 0xF0, 0x64, 0x01, 0x00, 0x64, 0x06, 0x08, 0xC0, 0xA8, 0x00, 0xE6]

/-- Witness for C8: one successful read per variant, with the returned
packet satisfying all three receive checks. -/
theorem readMessage_checks_witness :
    (sampleDatagram.getD 8 0 = 255 ∧
      ({ sampleIPv4Decoded with Pshdr := some (ipv4PshdrOf sampleDatagram) } :
        VRRPPacket).GetVersion = 3 ∧
      ({ sampleIPv4Decoded with Pshdr := some (ipv4PshdrOf sampleDatagram) } :
        VRRPPacket).ValidateCheckSum (ipv4PshdrOf sampleDatagram) = true) ∧
    ((255 : Nat) = 255 ∧
      ({ sampleV6Decoded with
          Pshdr := some ⟨sampleV6Src, sampleV6Dst, 0, VRRPIPProtocolNumber, 24 % 65536⟩ } :
        VRRPPacket).GetVersion = 3 ∧
      ({ sampleV6Decoded with
          Pshdr := some ⟨sampleV6Src, sampleV6Dst, 0, VRRPIPProtocolNumber, 24 % 65536⟩ } :
        VRRPPacket).ValidateCheckSum
          ⟨sampleV6Src, sampleV6Dst, 0, VRRPIPProtocolNumber, 24 % 65536⟩ = true) ∧
    ((255 : Nat) = 255 ∧
      ({ sampleIPv4Decoded with
          Pshdr := some ⟨[192, 168, 0, 220], [224, 0, 0, 18], 0, VRRPIPProtocolNumber,
            sampleCMBuffer.length % 65536⟩ } : VRRPPacket).GetVersion = 3 ∧
      ({ sampleIPv4Decoded with
          Pshdr := some ⟨[192, 168, 0, 220], [224, 0, 0, 18], 0, VRRPIPProtocolNumber,
            sampleCMBuffer.length % 65536⟩ } : VRRPPacket).ValidateCheckSum
          ⟨[192, 168, 0, 220], [224, 0, 0, 18], 0, VRRPIPProtocolNumber,
            sampleCMBuffer.length % 65536⟩ = true) := by
  have hp1 : IPv4ReadMessage sampleDatagram =
      Except.ok { sampleIPv4Decoded with Pshdr := some (ipv4PshdrOf sampleDatagram) } :=
    IPv4ReadMessage_ok sampleDatagram sampleIPv4Decoded (by decide) (by decide) (by decide)
      (by rfl) (by decide)
      (validateCheckSum_of_csum _ _ (by decide) (by decide))
  have hp2 : IPv6ReadMessage sampleV6Buffer 24 255 sampleV6Dst sampleV6Src =
      Except.ok { sampleV6Decoded with
        Pshdr := some ⟨sampleV6Src, sampleV6Dst, 0, VRRPIPProtocolNumber, 24 % 65536⟩ } :=
    IPv6ReadMessage_ok sampleV6Buffer 24 255 sampleV6Dst sampleV6Src sampleV6Decoded
      (by rfl) (by decide) (by decide)
      (validateCheckSum_of_csum _ _ (by decide) (by decide))
  have hp3 : IPv4ReadMessageCM 255 sampleCMBuffer [192, 168, 0, 220] [224, 0, 0, 18] =
      Except.ok { sampleIPv4Decoded with
        Pshdr := some ⟨[192, 168, 0, 220], [224, 0, 0, 18], 0, VRRPIPProtocolNumber,
          sampleCMBuffer.length % 65536⟩ } :=
    IPv4ReadMessageCM_ok 255 sampleCMBuffer [192, 168, 0, 220] [224, 0, 0, 18]
      sampleIPv4Decoded (by decide) (by rfl) (by decide)
      (validateCheckSum_of_csum _ _ (by decide) (by decide))
  exact ⟨readMessage_checks.1 sampleDatagram _ hp1,
    readMessage_checks.2.1 sampleV6Buffer 24 255 sampleV6Dst sampleV6Src _ hp2,
    readMessage_checks.2.2 255 sampleCMBuffer [192, 168, 0, 220] [224, 0, 0, 18] _ hp3⟩

/-! ## C9: virtual MAC addresses of NewVirtualRouter

`NewVirtualRouter` builds the MAC strings with
`fmt.Sprintf("00-00-5E-00-01-%X", VRID)` and parses them with
`net.ParseMAC`, discarding the error; a failed parse leaves the nil
(empty) hardware address. Strings are modelled as lists of byte codes. -/

/-- One uppercase hexadecimal digit character code. -/
def hexDigitUpper (d : Nat) : Nat :=
  if d < 10 then 48 + d else 55 + d

/-- Go fmt `%X` of a byte value: uppercase hexadecimal with no padding —
a single digit for values below 16, two digits for 16-255. -/
def formatHexByte (n : Nat) : List Nat :=
  if n < 16 then [hexDigitUpper n] else [hexDigitUpper (n / 16), hexDigitUpper (n % 16)]

/-- The hexadecimal value of one character code (net.ParseMAC's xtoi). -/
def hexVal (c : Nat) : Option Nat :=
  if 48 ≤ c ∧ c ≤ 57 then some (c - 48)
  else if 97 ≤ c ∧ c ≤ 102 then some (c - 87)
  else if 65 ≤ c ∧ c ≤ 70 then some (c - 55)
  else none

/-- net.ParseMAC's xtoi2: two hexadecimal digits, and the following
character (when present) must equal the expected separator. -/
def xtoi2 (l : List Nat) (e : Nat) : Option Nat :=
  match l with
  | a :: b :: rest =>
    match hexVal a, hexVal b with
    | some x, some y =>
      match rest with
      | [] => some (16 * x + y)
      | c :: _ => if c = e then some (16 * x + y) else none
    | _, _ => none
  | _ => none

/-- The group loop of net.ParseMAC for the colon / dash formats: `n`
two-digit groups at stride 3. -/
def parseMACGroups : Nat → List Nat → Nat → Option (List Nat)
  | 0, _, _ => some []
  | n + 1, s, sep =>
    match xtoi2 s sep with
    | none => none
    | some b =>
      match parseMACGroups n (s.drop 3) sep with
      | none => none
      | some rest => some (b :: rest)

/-- net.ParseMAC, restricted to the colon / dash formats (the only formats
these MAC strings can take; the dot-separated four-digit format of
net.ParseMAC is never produced by the fmt pattern and is omitted): the
string must have at least 14 characters, a separator at index 2, a length
of the form 3n-1 with n ∈ {6, 8, 20}, and n valid two-digit groups. -/
def ParseMAC (s : List Nat) : Option (List Nat) :=
  if s.length < 14 then none
  else if s.getD 2 0 = 58 ∨ s.getD 2 0 = 45 then
    if (s.length + 1) % 3 ≠ 0 then none
    else if (s.length + 1) / 3 ≠ 6 ∧ (s.length + 1) / 3 ≠ 8 ∧ (s.length + 1) / 3 ≠ 20 then
      none
    else parseMACGroups ((s.length + 1) / 3) s (s.getD 2 0)
  else none

/-- The character codes of "00-00-5E-00-01-". -/
def macPrefixIPv4 : List Nat :=
  [48, 48, 45, 48, 48, 45, 53, 69, 45, 48, 48, 45, 48, 49, 45]

/-- The character codes of "00-00-5E-00-02-". -/
def macPrefixIPv6 : List Nat :=
  [48, 48, 45, 48, 48, 45, 53, 69, 45, 48, 48, 45, 48, 50, 45]

/-- virtualRouterMACAddressIPv4 as assigned by NewVirtualRouter: the error
of ParseMAC is discarded, so a failed parse yields the empty address. -/
def virtualRouterMACAddressIPv4 (VRID : Nat) : List Nat :=
  (ParseMAC (macPrefixIPv4 ++ formatHexByte VRID)).getD []

/-- virtualRouterMACAddressIPv6 as assigned by NewVirtualRouter. -/
def virtualRouterMACAddressIPv6 (VRID : Nat) : List Nat :=
  (ParseMAC (macPrefixIPv6 ++ formatHexByte VRID)).getD []

/-- C9 counterexample: at VRID 1 the `%X` format yields a single hex digit,
ParseMAC rejects the 16-character string, and the stored MAC is empty
rather than 00:00:5E:00:01:01. -/
theorem virtualRouterMAC_counterexample :
    virtualRouterMACAddressIPv4 1 = [] ∧
    virtualRouterMACAddressIPv4 1 ≠ [0, 0, 0x5E, 0, 1, 1] ∧
    virtualRouterMACAddressIPv6 1 = [] := by
  decide

set_option maxRecDepth 40000 in
/-- C9 (amended): for VRID 16-255 the virtual MACs are
00:00:5E:00:01:VRID and 00:00:5E:00:02:VRID as specified; for VRID 0-15
the single-digit `%X` output makes ParseMAC fail and both MACs are empty. -/
theorem virtualRouterMAC_spec : ∀ VRID : Nat, VRID ≤ 255 →
    (16 ≤ VRID →
      virtualRouterMACAddressIPv4 VRID = [0, 0, 0x5E, 0, 1, VRID] ∧
      virtualRouterMACAddressIPv6 VRID = [0, 0, 0x5E, 0, 2, VRID]) ∧
    (VRID < 16 →
      virtualRouterMACAddressIPv4 VRID = [] ∧
      virtualRouterMACAddressIPv6 VRID = []) := by
  decide

/-- Witness for C9 at VRID 240. -/
theorem virtualRouterMAC_spec_witness :
    virtualRouterMACAddressIPv4 240 = [0, 0, 0x5E, 0, 1, 240] ∧
    virtualRouterMACAddressIPv6 240 = [0, 0, 0x5E, 0, 2, 240] :=
  (virtualRouterMAC_spec 240 (by decide)).1 (by decide)

end Govrrp
